import Mathlib

/-!
Shallow embedding of the trending-stocks scoring core, translated from the
repository sources:

* src/scanners/momentum.py          (Technical Trend Engine)
* src/scanners/bearish_momentum.py  (Bearish Trend Extractor)
* src/utils/scoring.py              (Long and Short Aggregation Engines)

Numeric model: all Python floats are modelled as rationals.  A float NaN is
modelled explicitly where it can actually arise (the RSI computation), via
Option; every comparison against a NaN is false in Python, which the Option
handling below reproduces.  The display roundings round(x, 1) and round(x, 2)
are modelled with the integer rounding of Mathlib; Python uses round-half-even,
which differs from round-half-up only at exact midpoints of the rounding grid,
and no property proved here depends on midpoint behaviour.

Python dicts built by comprehension (ticker keyed) are modelled as association
lists with later-entry-wins insertion (pyDict) and first-match lookup on the
deduplicated result (dictGet), which matches dict semantics exactly.
-/

namespace TrendingStocks

/-- Arithmetic mean of a list of rationals; the guarded call sites below never
apply it to an empty list. -/
def mean (l : List ℚ) : ℚ := l.sum / l.length

/-- The last n elements of a list (pandas tail / iloc slice). -/
def lastN (l : List ℚ) (n : ℕ) : List ℚ := l.drop (l.length - n)

/-- Element at negative pandas index -(k+1), i.e. k elements before the last. -/
def nthEnd (l : List ℚ) (k : ℕ) : ℚ := l.getD (l.length - 1 - k) 0

/-- Maximum of a list (pandas Series.max); 0 for the empty list, which the
guarded call sites never pass. -/
def maxD (l : List ℚ) : ℚ :=
  match l with
  | [] => 0
  | h :: t => t.foldl max h

/-- Keep the first occurrence of each element (Python dict.fromkeys order). -/
def dedupFirst : List String → List String
  | [] => []
  | a :: l => a :: dedupFirst (l.filter (fun b => !(b == a)))
termination_by l => l.length
decreasing_by
  simp only [List.length_cons]
  exact Nat.lt_succ_of_le (List.length_filter_le _ _)

/-- Insert into an association list with dict-assignment semantics: replace the
value of an existing key in place, otherwise append at the end. -/
def dictInsert (l : List (String × α)) (k : String) (v : α) : List (String × α) :=
  if l.any (fun p => p.1 == k) then
    l.map (fun p => if p.1 == k then (k, v) else p)
  else l ++ [(k, v)]

/-- The dict built from a list of keyed records: later records overwrite
earlier ones, first-insertion order is kept. -/
def pyDict (l : List (String × α)) : List (String × α) :=
  l.foldl (fun acc p => dictInsert acc p.1 p.2) []

/-- Lookup in an association list built by pyDict (dict.get). -/
def dictGet (d : List (String × α)) (t : String) : Option α :=
  (d.find? (fun p => p.1 == t)).map Prod.snd

/-- The key list of an association list (dict.keys). -/
def dictKeys (d : List (String × α)) : List String := d.map Prod.fst

/-- Python round(x, 1) on the rational model. -/
def round1 (q : ℚ) : ℚ := (round (10 * q) : ℤ) / 10

/-- Python round(x, 2) on the rational model. -/
def round2 (q : ℚ) : ℚ := (round (100 * q) : ℤ) / 100

/-! ## src/scanners/momentum.py -/

/-- calculate_rsi from src/scanners/momentum.py.

The pandas pipeline is: delta = prices.diff() (first entry NaN); the where
masks turn every delta into max(d, 0) resp. max(-d, 0) with the leading NaN
masked to 0; the rolling(period).mean() at the last position is defined only
when the series has at least period entries, otherwise it is NaN; rs is the
float quotient gain/loss where loss 0 with gain positive gives +inf (so the
RSI expression collapses to 100) and 0/0 gives NaN.  none models a NaN result;
the literal 50 is returned by the source only when the price series itself is
empty. -/
def calculate_rsi (prices : List ℚ) (period : ℕ := 14) : Option ℚ :=
  if prices = [] then some 50
  else if prices.length < period then none
  else
    let diffs := (prices.zip (prices.drop 1)).map (fun p => p.2 - p.1)
    let gains := 0 :: diffs.map (fun d => max d 0)
    let losses := 0 :: diffs.map (fun d => max (-d) 0)
    let gm := mean (lastN gains period)
    let lm := mean (lastN losses period)
    if 0 < lm then some (100 - 100 / (1 + gm / lm))
    else if 0 < gm then some 100
    else none

/-- The trend-quality classification at the end of calculate_momentum_score
(src/scanners/momentum.py lines 229-241), factored out verbatim: a priority
list evaluated top to bottom. -/
def classify_trend (score acceleration relative_strength : ℚ)
    (too_late_flags : List String) : String :=
  if 75 ≤ score ∧ 0 < acceleration ∧ 0 < relative_strength then "strong_early"
  else if 65 ≤ score ∧ too_late_flags = [] then "confirmed"
  else if 55 ≤ score then "emerging"
  else if too_late_flags ≠ [] then "extended"
  else if 40 ≤ score then "weak"
  else "bearish"

/-- The same classification rules, written independently from the words of
spec.md section 4.1 step 11, for the refinement comparison of claim C3. -/
def classify_trend_specRules (score acceleration relative_strength : ℚ)
    (too_late_flags : List String) : String :=
  if 75 ≤ score ∧ 0 < acceleration ∧ 0 < relative_strength then "strong_early"
  else if 65 ≤ score ∧ too_late_flags = [] then "confirmed"
  else if 55 ≤ score then "emerging"
  else if too_late_flags ≠ [] then "extended"
  else if 40 ≤ score then "weak"
  else "bearish"

/-- The dict returned by calculate_momentum_score.  The rsi field is an Option
because the float RSI can be NaN (all of the last 14 deltas zero); every
other field is a number or flag the source computes unconditionally.  The
summary-irrelevant ticker key is added later by the scan loop. -/
structure MomentumProfile where
  change_1d : ℚ
  change_5d : ℚ
  change_1m : ℚ
  volume_ratio : ℚ
  rsi : Option ℚ
  above_ma20 : Bool
  above_ma50 : Bool
  score : ℚ
  price : ℚ
  acceleration : ℚ
  relative_strength : ℚ
  vol_direction_ratio : ℚ
  is_breakout : Bool
  consecutive_up_days : ℕ
  pct_above_ma20 : ℚ
  too_late_flags : List String
  trend_quality : String
  deriving DecidableEq

/-- calculate_momentum_score from src/scanners/momentum.py.  The input is the
OHLCV frame reduced to its (Close, Volume) columns, one pair per row.

Inside the else branch the length is at least 20, so the source guards
len >= 2, len >= 6, len >= 20 (price changes), len >= 11 (acceleration) and
len >= 20 (20-day high) are all true and are collapsed here. -/
def calculate_momentum_score (ohlcv : List (ℚ × ℚ))
    (spy_change_1m : ℚ := 0) : Option MomentumProfile :=
  if ohlcv.length < 20 then none
  else
    let close := ohlcv.map Prod.fst
    let volume := ohlcv.map Prod.snd
    let price := nthEnd close 0
    let change_1d := (nthEnd close 0 / nthEnd close 1 - 1) * 100
    let change_5d := (nthEnd close 0 / nthEnd close 5 - 1) * 100
    let change_1m := (nthEnd close 0 / close.headD 0 - 1) * 100
    let avg_volume := mean volume.dropLast
    let volume_ratio := if 0 < avg_volume then nthEnd volume 0 / avg_volume else 1
    let rsi := calculate_rsi close
    let ma_20 := mean (lastN close 20)
    let ma_50 := if 50 ≤ close.length then mean (lastN close 50) else ma_20
    let above_ma20 := decide (ma_20 < nthEnd close 0)
    let above_ma50 := decide (ma_50 < nthEnd close 0)
    let pct_above_ma20 := if 0 < ma_20 then (nthEnd close 0 - ma_20) / ma_20 * 100 else 0
    let recent_5d := (nthEnd close 0 / nthEnd close 5 - 1) * 100
    let prior_5d := (nthEnd close 5 / nthEnd close 10 - 1) * 100
    let acceleration := recent_5d - prior_5d
    let relative_strength := change_1m - spy_change_1m
    -- pct_change gives NaN at index 0, excluded from the up/down masks;
    -- only returns at indices 1..n-1 paired with the matching volumes remain.
    let daily_returns := (close.zip (close.drop 1)).map (fun p => p.2 / p.1 - 1)
    let pairs := daily_returns.zip (volume.drop 1)
    let upVols := (pairs.filter (fun p => decide (0 < p.1))).map Prod.snd
    let downVols := (pairs.filter (fun p => decide (p.1 < 0))).map Prod.snd
    let vol_direction_ratio :=
      if upVols ≠ [] ∧ downVols ≠ [] then
        if 0 < mean downVols then mean upVols / mean downVols else 1
      else 1
    let high_20d := maxD (lastN close 20)
    let is_breakout :=
      decide (high_20d * (99 / 100) ≤ nthEnd close 0) && decide (3 / 2 < volume_ratio)
    let consecutive_up := (daily_returns.reverse.takeWhile (fun r => decide (0 < r))).length
    -- scoring
    let score : ℚ := 50
    let score := score + min (max (change_1m * 1.5) (-20)) 20
    let score := score +
      (if 3 < acceleration then 8 else if 1 < acceleration then 5
       else if 0 < acceleration then 2 else if acceleration < -3 then -8
       else if acceleration < -1 then -5 else if acceleration < 0 then -2 else 0)
    let score := score +
      (if 8 < relative_strength then 7 else if 4 < relative_strength then 5
       else if 1 < relative_strength then 3 else if relative_strength < -8 then -7
       else if relative_strength < -4 then -5 else if relative_strength < -1 then -3 else 0)
    let score := score +
      (if 1.4 < vol_direction_ratio then 7 else if 1.15 < vol_direction_ratio then 4
       else if vol_direction_ratio < 0.7 then -7
       else if vol_direction_ratio < 0.85 then -4 else 0)
    let score := score + (if 2 < volume_ratio then 5 else if 1.5 < volume_ratio then 3 else 0)
    let score := if is_breakout then score + 8 else score
    let score := score +
      (match rsi with
       | some r =>
         if 50 ≤ r ∧ r < 65 then 8 else if 65 ≤ r ∧ r < 75 then 4
         else if 40 ≤ r ∧ r < 50 then 0 else if 30 ≤ r ∧ r < 40 then -4
         else if r < 30 then -8 else 0
       | none => 0)
    let score := if above_ma20 then score + 3 else score
    let score := if above_ma50 then score + 2 else score
    -- too-late penalties
    let rsi_extreme : Bool := match rsi with | some r => decide (80 < r) | none => false
    let score := if rsi_extreme then score - 4 else score
    let score := if 12 < pct_above_ma20 then score - 4 else score
    let score := if 7 ≤ consecutive_up then score - 4 else score
    let too_late_flags :=
      (if rsi_extreme then ["rsi_extreme"] else []) ++
      (if 12 < pct_above_ma20 then ["extended_above_ma"] else []) ++
      (if 7 ≤ consecutive_up then ["consecutive_up_days"] else [])
    let score := max 0 (min 100 score)
    let trend_quality := classify_trend score acceleration relative_strength too_late_flags
    some {
      change_1d := round2 change_1d
      change_5d := round2 change_5d
      change_1m := round2 change_1m
      volume_ratio := round2 volume_ratio
      rsi := rsi.map round1
      above_ma20 := above_ma20
      above_ma50 := above_ma50
      score := round1 score
      price := round2 price
      acceleration := round2 acceleration
      relative_strength := round2 relative_strength
      vol_direction_ratio := round2 vol_direction_ratio
      is_breakout := is_breakout
      consecutive_up_days := consecutive_up
      pct_above_ma20 := round2 pct_above_ma20
      too_late_flags := too_late_flags
      trend_quality := trend_quality
    }

/-- The per-ticker loop of scan_momentum (src/scanners/momentum.py lines
331-349) over one downloaded batch: an empty frame is skipped, a None profile
is skipped, every other ticker contributes one result; the network download,
the SPY benchmark extraction and the final sort of the full result list are
outside this per-ticker loop. -/
def scan_momentum_core (batch : List (String × List (ℚ × ℚ)))
    (spy_change_1m : ℚ) : List (String × MomentumProfile) :=
  batch.filterMap (fun td =>
    if td.2 = [] then none
    else (calculate_momentum_score td.2 spy_change_1m).map (fun m => (td.1, m)))

/-! ## src/scanners/bearish_momentum.py -/

/-- One record of the momentum result list as read by scan_bearish_momentum.
The source reads each field with stock.get(key, default); the record is
modelled with every read field present (the scan loop of momentum.py always
emits all of them). -/
structure MomRec where
  ticker : String
  change_1d : ℚ
  change_5d : ℚ
  change_1m : ℚ
  rsi : ℚ
  volume_ratio : ℚ
  above_ma20 : Bool
  above_ma50 : Bool
  deriving DecidableEq

/-- One emitted bearish candidate (the summary string is omitted; no claim
reads it). -/
structure BearishCand where
  ticker : String
  score : ℚ
  signals : List String
  change_1m : ℚ
  rsi : ℚ
  deriving DecidableEq

/-- The per-stock score/signal accumulation of scan_bearish_momentum
(src/scanners/bearish_momentum.py lines 35-80), including the source's
if rsi > 70 / elif rsi > 80 chain exactly as written: the elif branch is
syntactically reachable only when the first test failed. -/
def bearish_eval (stock : MomRec) : ℚ × List String :=
  let s0 : ℚ := 0
  let s1 := if stock.change_1m < 0 then s0 + min (|stock.change_1m| * 1.5) 30 else s0
  let g1 : List String := if stock.change_1m < 0 then ["declining"] else []
  let s2 := if 70 < stock.rsi then s1 + min ((stock.rsi - 70) * 1.5) 20
            else if 80 < stock.rsi then s1 + 5 else s1
  let g2 := if 70 < stock.rsi then g1 ++ ["overbought"]
            else if 80 < stock.rsi then g1 ++ ["extreme_overbought"] else g1
  let s3 := if stock.above_ma20 = false then s2 + 10 else s2
  let g3 := if stock.above_ma20 = false then g2 ++ ["below_ma20"] else g2
  let s4 := if stock.above_ma50 = false then s3 + 10 else s3
  let g4 := if stock.above_ma50 = false then g3 ++ ["below_ma50"] else g3
  let s5 := if stock.above_ma50 = false ∧ stock.change_5d < 0 then s4 + 10 else s4
  let g5 := if stock.above_ma50 = false ∧ stock.change_5d < 0 then
              g4 ++ ["death_cross_proxy"] else g4
  let s6 := if 1.5 < stock.volume_ratio ∧ stock.change_1d < 0 then
              s5 + min ((stock.volume_ratio - 1) * 5) 15 else s5
  let g6 := if 1.5 < stock.volume_ratio ∧ stock.change_1d < 0 then
              g5 ++ ["high_vol_decline"] else g5
  let s7 := if stock.above_ma20 = false ∧ stock.above_ma50 = false then s6 + 5 else s6
  let g7 := if stock.above_ma20 = false ∧ stock.above_ma50 = false then
              g6 ++ ["breakdown"] else g6
  (max 0 (min 100 s7), g7)

/-- scan_bearish_momentum from src/scanners/bearish_momentum.py: stocks
scoring below 10 are dropped, the rest are sorted by score descending. -/
def scan_bearish_momentum (momentum_data : List MomRec) : List BearishCand :=
  (momentum_data.filterMap (fun stock =>
    let sc := bearish_eval stock
    if sc.1 < 10 then none
    else some {
      ticker := stock.ticker
      score := round1 sc.1
      signals := sc.2
      change_1m := round2 stock.change_1m
      rsi := round1 stock.rsi })).mergeSort (fun a b => b.score ≤ a.score)

/-! ## src/utils/scoring.py — Long Aggregation Engine -/

/-- The weight table of aggregate_scores; weights.get(name, 0) is total over
these twelve names. -/
structure LongWeights where
  momentum : ℚ
  finviz : ℚ
  reddit : ℚ
  news : ℚ
  google_trends : ℚ
  short_interest : ℚ
  options_activity : ℚ
  perplexity : ℚ
  insider_trading : ℚ
  analyst_ratings : ℚ
  congress_trading : ℚ
  institutional : ℚ
  deriving DecidableEq

def DEFAULT_WEIGHTS : LongWeights :=
  { momentum := 0.20, finviz := 0.12, reddit := 0.10, news := 0.10
    google_trends := 0.06, short_interest := 0.06, options_activity := 0.08
    perplexity := 0.06, insider_trading := 0.05, analyst_ratings := 0.06
    congress_trading := 0.05, institutional := 0.06 }

def THEME_BONUS : ℚ := 5

def MULTI_SOURCE_BONUS : ℚ := 3

/-- The inputs of aggregate_scores.  Each of the twelve score sources is the
list of its records reduced to (ticker, score); the source builds a dict from
each list and reads only the score through it for the combined sum (the
extra per-source fields feed only the omitted summary string and passthrough
fields).  etf_hot_holdings is the hot_holdings map of etf_flows_data, reduced
to (ticker, combined_flow_score). -/
structure LongInputs where
  momentum_data : List (String × ℚ)
  reddit_data : List (String × ℚ)
  news_data : List (String × ℚ)
  finviz_data : List (String × ℚ)
  google_trends_data : List (String × ℚ)
  short_interest_data : List (String × ℚ)
  options_data : List (String × ℚ)
  perplexity_data : List (String × ℚ)
  insider_data : List (String × ℚ)
  analyst_data : List (String × ℚ)
  congress_data : List (String × ℚ)
  institutional_data : List (String × ℚ)
  theme_tickers : List String
  etf_hot_holdings : List (String × ℚ)
  deriving DecidableEq

/-- The ticker universe of aggregate_scores: the union of the key sets of the
twelve score-source lookups (src/utils/scoring.py lines 129-142).  The
etf-flows hot-holdings map is deliberately NOT part of the union. -/
def long_all_tickers (inp : LongInputs) : List String :=
  dedupFirst
    (dictKeys (pyDict inp.momentum_data) ++ dictKeys (pyDict inp.reddit_data) ++
     dictKeys (pyDict inp.news_data) ++ dictKeys (pyDict inp.finviz_data) ++
     dictKeys (pyDict inp.google_trends_data) ++ dictKeys (pyDict inp.short_interest_data) ++
     dictKeys (pyDict inp.options_data) ++ dictKeys (pyDict inp.perplexity_data) ++
     dictKeys (pyDict inp.insider_data) ++ dictKeys (pyDict inp.analyst_data) ++
     dictKeys (pyDict inp.congress_data) ++ dictKeys (pyDict inp.institutional_data))

/-- The contributing-source name list of the twelve score sources for one
ticker, in the order the source appends them (src/utils/scoring.py lines
200-225). -/
def long_sources_12 (inp : LongInputs) (t : String) : List String :=
  (if (dictGet (pyDict inp.momentum_data) t).isSome then ["momentum"] else []) ++
  (if (dictGet (pyDict inp.finviz_data) t).isSome then ["finviz"] else []) ++
  (if (dictGet (pyDict inp.reddit_data) t).isSome then ["reddit"] else []) ++
  (if (dictGet (pyDict inp.news_data) t).isSome then ["news"] else []) ++
  (if (dictGet (pyDict inp.google_trends_data) t).isSome then ["google_trends"] else []) ++
  (if (dictGet (pyDict inp.short_interest_data) t).isSome then ["short_interest"] else []) ++
  (if (dictGet (pyDict inp.options_data) t).isSome then ["options"] else []) ++
  (if (dictGet (pyDict inp.perplexity_data) t).isSome then ["perplexity"] else []) ++
  (if (dictGet (pyDict inp.insider_data) t).isSome then ["insider"] else []) ++
  (if (dictGet (pyDict inp.analyst_data) t).isSome then ["analyst"] else []) ++
  (if (dictGet (pyDict inp.congress_data) t).isSome then ["congress"] else []) ++
  (if (dictGet (pyDict inp.institutional_data) t).isSome then ["institutional"] else [])

/-- The full contributing-source list: the twelve score sources followed by
etf_flows when the ticker is a hot ETF holding (line 226-227). -/
def long_sources (inp : LongInputs) (t : String) : List String :=
  long_sources_12 inp t ++
  (if (dictGet (pyDict inp.etf_hot_holdings) t).isSome then ["etf_flows"] else [])

/-- The weighted combined sum of aggregate_scores (lines 161-189): each of the
twelve sources contributes its score, defaulting to 50 when the source has no
entry for the ticker, times its weight. -/
def long_weighted_sum (inp : LongInputs) (w : LongWeights) (t : String) : ℚ :=
  ((dictGet (pyDict inp.momentum_data) t).getD 50) * w.momentum +
  ((dictGet (pyDict inp.finviz_data) t).getD 50) * w.finviz +
  ((dictGet (pyDict inp.reddit_data) t).getD 50) * w.reddit +
  ((dictGet (pyDict inp.news_data) t).getD 50) * w.news +
  ((dictGet (pyDict inp.google_trends_data) t).getD 50) * w.google_trends +
  ((dictGet (pyDict inp.short_interest_data) t).getD 50) * w.short_interest +
  ((dictGet (pyDict inp.options_data) t).getD 50) * w.options_activity +
  ((dictGet (pyDict inp.perplexity_data) t).getD 50) * w.perplexity +
  ((dictGet (pyDict inp.insider_data) t).getD 50) * w.insider_trading +
  ((dictGet (pyDict inp.analyst_data) t).getD 50) * w.analyst_ratings +
  ((dictGet (pyDict inp.congress_data) t).getD 50) * w.congress_trading +
  ((dictGet (pyDict inp.institutional_data) t).getD 50) * w.institutional

/-- One output row of aggregate_scores (summary string, per-source rounded
scores and raw passthrough fields omitted; no claim reads them). -/
structure LongResult where
  ticker : String
  combined_score : ℚ
  sources : List String
  in_hot_theme : Bool
  deriving DecidableEq

/-- The loop body of aggregate_scores for one ticker (src/utils/scoring.py
lines 146-316): weighted sum, ETF-flow bonus, theme bonus, multi-source
bonus, in the order of the source; the combined score is rounded to one
decimal and never clamped. -/
def long_score_ticker (inp : LongInputs) (w : LongWeights) (t : String) : LongResult :=
  let etf_hot := dictGet (pyDict inp.etf_hot_holdings) t
  let combined := long_weighted_sum inp w t
  -- if etf_hot: combined += etf_hot.get(flow key, 0) * 0.05
  let combined := if etf_hot.isSome then combined + etf_hot.getD 0 * 0.05 else combined
  let in_hot_theme : Bool := t ∈ inp.theme_tickers
  let combined := if in_hot_theme then combined + THEME_BONUS else combined
  let sources := long_sources inp t
  let combined :=
    if 1 < sources.length then combined + ((sources.length : ℚ) - 1) * MULTI_SOURCE_BONUS
    else combined
  { ticker := t, combined_score := round1 combined
    sources := sources, in_hot_theme := in_hot_theme }

/-- aggregate_scores from src/utils/scoring.py: one row per ticker of the
twelve-source union, sorted by combined score descending. -/
def aggregate_scores (inp : LongInputs)
    (w : LongWeights := DEFAULT_WEIGHTS) : List LongResult :=
  ((long_all_tickers inp).map (long_score_ticker inp w)).mergeSort
    (fun a b => b.combined_score ≤ a.combined_score)

/-! ## src/utils/scoring.py — Short Aggregation Engine -/

structure ShortWeights where
  bearish_momentum : ℚ
  fundamentals : ℚ
  analyst_downgrades : ℚ
  bearish_options : ℚ
  insider_selling : ℚ
  institutional_dist : ℚ
  finviz_bearish : ℚ
  congress_selling : ℚ
  negative_news : ℚ
  deriving DecidableEq

def DEFAULT_SHORT_WEIGHTS : ShortWeights :=
  { bearish_momentum := 0.25, fundamentals := 0.15, analyst_downgrades := 0.12
    bearish_options := 0.12, insider_selling := 0.10, institutional_dist := 0.08
    finviz_bearish := 0.08, congress_selling := 0.05, negative_news := 0.05 }

def MULTI_SOURCE_SHORT_BONUS : ℚ := 4

def SQUEEZE_PENALTY_POINTS : ℚ := 15

/-- A scored record with a signal list (bearish momentum and fundamentals
inputs of aggregate_short_scores). -/
structure ScoredRec where
  score : ℚ
  signals : List String
  deriving DecidableEq

/-- An analyst-ratings record as read by aggregate_short_scores. -/
structure AnalystRec where
  action : String
  score : ℚ
  deriving DecidableEq

/-- An options-activity record; put_call_ratio may be absent or null, read as
(d.get(key) or 0). -/
structure OptionsRec where
  signal : String
  score : ℚ
  put_call_ratio : Option ℚ
  deriving DecidableEq

/-- An insider-trading record. -/
structure InsiderRec where
  is_buy : Bool
  score : ℚ
  transaction_value : ℚ
  deriving DecidableEq

/-- A record carrying only a signal tag and a score (institutional holdings
and congress trading). -/
structure SignalRec where
  signal : String
  score : ℚ
  deriving DecidableEq

/-- A news record as read by the short engine. -/
structure NewsRec where
  sentiment : String
  score : ℚ
  deriving DecidableEq

/-- A short-interest record; short_float may be absent or null, read as
(d.get(key) or 0). -/
structure ShortIntRec where
  short_float : Option ℚ
  deriving DecidableEq

/-- The finviz dict as read by the short engine: the top_losers list reduced
to (ticker, change) and the overbought list reduced to tickers. -/
structure FinvizShort where
  top_losers : List (String × ℚ)
  overbought : List String
  deriving DecidableEq

/-- The finviz_bearish_lookup construction of aggregate_short_scores
(src/utils/scoring.py lines 444-457): top losers get min(|change|*5, 80) with
a top_loser tag; overbought tickers add 20 (capped at 100) to an existing
entry or enter at 60. -/
def finviz_bearish (fv : FinvizShort) : List (String × ScoredRec) :=
  let l1 := fv.top_losers.foldl (fun acc s =>
    dictInsert acc s.1 { score := min (|s.2| * 5) 80, signals := ["top_loser"] }) []
  fv.overbought.foldl (fun acc t =>
    match dictGet acc t with
    | some r => dictInsert acc t { score := min (r.score + 20) 100
                                   signals := r.signals ++ ["overbought"] }
    | none => dictInsert acc t { score := 60, signals := ["overbought"] }) l1

/-- The inputs of aggregate_short_scores, each record list keyed by ticker. -/
structure ShortInputs where
  bearish_momentum_data : List (String × ScoredRec)
  fundamentals_data : List (String × ScoredRec)
  analyst_data : List (String × AnalystRec)
  options_data : List (String × OptionsRec)
  insider_data : List (String × InsiderRec)
  institutional_data : List (String × SignalRec)
  finviz_data : FinvizShort
  congress_data : List (String × SignalRec)
  news_data : List (String × NewsRec)
  short_interest_data : List (String × ShortIntRec)
  deriving DecidableEq

/-- The candidate universe of aggregate_short_scores (lines 459-470): every
ticker showing at least one bearish signal. -/
def short_all_tickers (inp : ShortInputs) : List String :=
  dedupFirst
    (dictKeys (pyDict inp.bearish_momentum_data) ++
     dictKeys (pyDict inp.fundamentals_data) ++
     dictKeys ((pyDict inp.analyst_data).filter
       (fun p => p.2.action == "downgrade" || p.2.action == "pt_lower")) ++
     dictKeys ((pyDict inp.options_data).filter
       (fun p => p.2.signal == "bearish_sweep" || decide (1.5 < p.2.put_call_ratio.getD 0))) ++
     dictKeys ((pyDict inp.insider_data).filter (fun p => !p.2.is_buy)) ++
     dictKeys ((pyDict inp.institutional_data).filter
       (fun p => p.2.signal == "institutional_distribution")) ++
     dictKeys (finviz_bearish inp.finviz_data) ++
     dictKeys ((pyDict inp.congress_data).filter
       (fun p => p.2.signal == "congress_selling")) ++
     dictKeys ((pyDict inp.news_data).filter (fun p => p.2.sentiment == "negative")))

/-- One output row of aggregate_short_scores (the short_summary string is
omitted; no claim reads it).  The nine per-source fields are the rounded
source_scores entries of the source, in its insertion order. -/
structure ShortResult where
  ticker : String
  short_score : ℚ
  bearish_signals : List String
  squeeze_warning : Bool
  bearish_momentum_score : ℚ
  fundamentals_score : ℚ
  analyst_short_score : ℚ
  options_short_score : ℚ
  insider_sell_score : ℚ
  institutional_dist_score : ℚ
  finviz_bearish_score : ℚ
  congress_sell_score : ℚ
  negative_news_score : ℚ
  deriving DecidableEq

/-- Bearish-momentum sub-score of one ticker (source block 1 of the loop in
aggregate_short_scores, src/utils/scoring.py lines 478-483). -/
def short_bm_score (inp : ShortInputs) (t : String) : ℚ :=
  ((dictGet (pyDict inp.bearish_momentum_data) t).map ScoredRec.score).getD 0

/-- Fundamentals sub-score (block 2, lines 485-490). -/
def short_fund_score (inp : ShortInputs) (t : String) : ℚ :=
  ((dictGet (pyDict inp.fundamentals_data) t).map ScoredRec.score).getD 0

/-- Analyst-downgrade sub-score (block 3, lines 492-498). -/
def short_anlst_score (inp : ShortInputs) (t : String) : ℚ :=
  match dictGet (pyDict inp.analyst_data) t with
  | some a => if a.action = "downgrade" ∨ a.action = "pt_lower" then a.score else 0
  | none => 0

/-- Bearish-options sub-score (block 4, lines 500-510). -/
def short_opts_score (inp : ShortInputs) (t : String) : ℚ :=
  match dictGet (pyDict inp.options_data) t with
  | some o =>
    if o.signal = "bearish_sweep" then o.score
    else if 1.5 < o.put_call_ratio.getD 0 then min (o.put_call_ratio.getD 1.5 * 30) 80
    else 0
  | none => 0

/-- Insider-selling sub-score (block 5, lines 512-521). -/
def short_insd_score (inp : ShortInputs) (t : String) : ℚ :=
  match dictGet (pyDict inp.insider_data) t with
  | some i =>
    if !i.is_buy then
      if 1000000 < i.transaction_value then min (i.score + 15) 100 else i.score
    else 0
  | none => 0

/-- Institutional-distribution sub-score (block 6, lines 523-529). -/
def short_inst_score (inp : ShortInputs) (t : String) : ℚ :=
  match dictGet (pyDict inp.institutional_data) t with
  | some r => if r.signal = "institutional_distribution" then r.score else 0
  | none => 0

/-- Finviz bearish sub-score (block 7, lines 531-536). -/
def short_fvz_score (inp : ShortInputs) (t : String) : ℚ :=
  ((dictGet (finviz_bearish inp.finviz_data) t).map ScoredRec.score).getD 0

/-- Congress-selling sub-score (block 8, lines 538-544). -/
def short_cong_score (inp : ShortInputs) (t : String) : ℚ :=
  match dictGet (pyDict inp.congress_data) t with
  | some r => if r.signal = "congress_selling" then r.score else 0
  | none => 0

/-- Negative-news sub-score (block 9, lines 546-552). -/
def short_news_score (inp : ShortInputs) (t : String) : ℚ :=
  match dictGet (pyDict inp.news_data) t with
  | some r => if r.sentiment = "negative" then r.score else 0
  | none => 0

/-- The bearish_signals accumulation of the loop, in source order. -/
def short_signals_raw (inp : ShortInputs) (t : String) : List String :=
  ((dictGet (pyDict inp.bearish_momentum_data) t).map ScoredRec.signals).getD [] ++
  ((dictGet (pyDict inp.fundamentals_data) t).map ScoredRec.signals).getD [] ++
  (match dictGet (pyDict inp.analyst_data) t with
   | some a => if a.action = "downgrade" ∨ a.action = "pt_lower"
               then ["analyst_" ++ a.action] else []
   | none => []) ++
  (match dictGet (pyDict inp.options_data) t with
   | some o =>
     if o.signal = "bearish_sweep" then ["bearish_sweep"]
     else if 1.5 < o.put_call_ratio.getD 0 then ["high_put_call"]
     else []
   | none => []) ++
  (match dictGet (pyDict inp.insider_data) t with
   | some i => if !i.is_buy then ["insider_selling"] else []
   | none => []) ++
  (match dictGet (pyDict inp.institutional_data) t with
   | some r => if r.signal = "institutional_distribution"
               then ["institutional_distribution"] else []
   | none => []) ++
  ((dictGet (finviz_bearish inp.finviz_data) t).map ScoredRec.signals).getD [] ++
  (match dictGet (pyDict inp.congress_data) t with
   | some r => if r.signal = "congress_selling" then ["congress_selling"] else []
   | none => []) ++
  (match dictGet (pyDict inp.news_data) t with
   | some r => if r.sentiment = "negative" then ["negative_news"] else []
   | none => [])

/-- The weighted combination plus multi-source bonus of the loop (lines
554-570), before the squeeze penalty: active sources are counted over the
ROUNDED source_scores values, +4 each beyond the first. -/
def short_pre_score (inp : ShortInputs) (w : ShortWeights) (t : String) : ℚ :=
  let short_score :=
    short_bm_score inp t * w.bearish_momentum + short_fund_score inp t * w.fundamentals +
    short_anlst_score inp t * w.analyst_downgrades +
    short_opts_score inp t * w.bearish_options +
    short_insd_score inp t * w.insider_selling +
    short_inst_score inp t * w.institutional_dist +
    short_fvz_score inp t * w.finviz_bearish +
    short_cong_score inp t * w.congress_selling +
    short_news_score inp t * w.negative_news
  let rounded := [round1 (short_bm_score inp t), round1 (short_fund_score inp t),
                  round1 (short_anlst_score inp t), round1 (short_opts_score inp t),
                  round1 (short_insd_score inp t), round1 (short_inst_score inp t),
                  round1 (short_fvz_score inp t), round1 (short_cong_score inp t),
                  round1 (short_news_score inp t)]
  let active_sources := rounded.countP (fun v => decide (0 < v))
  if 1 < active_sources then
    short_score + ((active_sources : ℚ) - 1) * MULTI_SOURCE_SHORT_BONUS
  else short_score

/-- The squeeze-warning flag of the loop (lines 572-576): short_float above
20 per the short-interest lookup. -/
def short_squeeze_warning (inp : ShortInputs) (t : String) : Bool :=
  match dictGet (pyDict inp.short_interest_data) t with
  | some r => decide (20 < r.short_float.getD 0)
  | none => false

/-- The loop body of aggregate_short_scores for one ticker (src/utils/
scoring.py lines 474-609): the weighted sub-score combination, the optional
fixed squeeze penalty, rounded to one decimal and floored at 0. -/
def short_score_ticker (inp : ShortInputs) (w : ShortWeights)
    (squeeze_penalty : Bool) (t : String) : ShortResult :=
  let short_score :=
    if short_squeeze_warning inp t && squeeze_penalty then
      short_pre_score inp w t - SQUEEZE_PENALTY_POINTS
    else short_pre_score inp w t
  { ticker := t, short_score := max 0 (round1 short_score)
    bearish_signals := dedupFirst (short_signals_raw inp t)
    squeeze_warning := short_squeeze_warning inp t
    bearish_momentum_score := round1 (short_bm_score inp t)
    fundamentals_score := round1 (short_fund_score inp t)
    analyst_short_score := round1 (short_anlst_score inp t)
    options_short_score := round1 (short_opts_score inp t)
    insider_sell_score := round1 (short_insd_score inp t)
    institutional_dist_score := round1 (short_inst_score inp t)
    finviz_bearish_score := round1 (short_fvz_score inp t)
    congress_sell_score := round1 (short_cong_score inp t)
    negative_news_score := round1 (short_news_score inp t) }

/-- aggregate_short_scores from src/utils/scoring.py: one row per candidate
ticker, rows below min_score dropped, sorted by short score descending. -/
def aggregate_short_scores (inp : ShortInputs)
    (w : ShortWeights := DEFAULT_SHORT_WEIGHTS) (min_score : ℚ := 40)
    (squeeze_penalty : Bool := true) : List ShortResult :=
  (((short_all_tickers inp).map (short_score_ticker inp w squeeze_penalty)).filter
    (fun r => decide (min_score ≤ r.short_score))).mergeSort
    (fun a b => b.short_score ≤ a.short_score)

/-! ## Helper lemmas -/

theorem round_q_mono {x y : ℚ} (h : x ≤ y) : round x ≤ round y := by
  rw [round_eq, round_eq]
  exact Int.floor_le_floor (by linarith)

theorem round1_clamp_bounds (x : ℚ) :
    0 ≤ round1 (max 0 (min 100 x)) ∧ round1 (max 0 (min 100 x)) ≤ 100 := by
  have h0 : (0 : ℚ) ≤ max 0 (min 100 x) := le_max_left _ _
  have h1 : max 0 (min 100 x) ≤ 100 := max_le (by norm_num) (min_le_left _ _)
  have hl : (0 : ℤ) ≤ round (10 * max 0 (min 100 x)) := by
    have h := round_q_mono (show (0 : ℚ) ≤ 10 * max 0 (min 100 x) by linarith)
    simpa using h
  have hu : round (10 * max 0 (min 100 x)) ≤ 1000 := by
    have h := round_q_mono (show 10 * max 0 (min 100 x) ≤ ((1000 : ℤ) : ℚ) by push_cast; linarith)
    simpa [round_intCast] using h
  unfold round1
  constructor
  · exact div_nonneg (by exact_mod_cast hl) (by norm_num)
  · rw [div_le_iff₀ (by norm_num)]
    exact_mod_cast hu

theorem round1_sub_fifteen (x : ℚ) : round1 (x - 15) = round1 x - 15 := by
  unfold round1
  have h : (10 : ℚ) * (x - 15) = 10 * x - ((150 : ℤ) : ℚ) := by push_cast; ring
  rw [h, round_sub_int]
  push_cast
  ring

theorem max_zero_shift (y : ℚ) : max 0 (y - 15) = max 0 (max 0 y - 15) := by
  rcases le_total 0 y with h | h
  · rw [max_eq_right h]
  · rw [max_eq_left h, max_eq_left (by linarith : y - 15 ≤ 0)]
    norm_num

theorem mem_dedupFirst : ∀ (l : List String) (a : String), a ∈ dedupFirst l ↔ a ∈ l := by
  intro l
  induction l using dedupFirst.induct with
  | case1 =>
    intro a
    simp [dedupFirst]
  | case2 b l ih =>
    intro a
    rw [dedupFirst]
    simp only [List.mem_cons]
    constructor
    · rintro (rfl | h)
      · left; rfl
      · right; exact (List.mem_filter.mp ((ih a).mp h)).1
    · rintro (rfl | h)
      · left; rfl
      · by_cases hab : a = b
        · left; exact hab
        · right
          exact (ih a).mpr (List.mem_filter.mpr ⟨h, by simp [hab]⟩)

theorem dictGet_isSome_iff (d : List (String × α)) (t : String) :
    (dictGet d t).isSome = true ↔ t ∈ dictKeys d := by
  unfold dictGet dictKeys
  rw [Option.isSome_map', List.find?_isSome]
  constructor
  · rintro ⟨x, hx, hxt⟩
    exact List.mem_map.mpr ⟨x, hx, by simpa using hxt⟩
  · intro h
    obtain ⟨x, hx, hxt⟩ := List.mem_map.mp h
    exact ⟨x, hx, by simpa using hxt⟩

theorem long_sources_ne_nil (inp : LongInputs) (t : String)
    (h : t ∈ long_all_tickers inp) : long_sources_12 inp t ≠ [] := by
  rw [long_all_tickers, mem_dedupFirst] at h
  simp only [List.mem_append, ← dictGet_isSome_iff] at h
  intro hnil
  rw [long_sources_12] at hnil
  simp only [List.append_eq_nil, ite_eq_right_iff] at hnil
  simp only [List.cons_ne_nil, imp_false] at hnil
  tauto

theorem one_le_long_sources_length (inp : LongInputs) (t : String)
    (h : t ∈ long_all_tickers inp) : 1 ≤ (long_sources inp t).length := by
  have h12 := List.length_pos.mpr (long_sources_ne_nil inp t h)
  rw [long_sources, List.length_append]
  omega

theorem long_score_ticker_eq (inp : LongInputs) (w : LongWeights) (t : String)
    (h1 : 1 ≤ (long_sources inp t).length) :
    (long_score_ticker inp w t).combined_score =
      round1 (long_weighted_sum inp w t +
        (dictGet (pyDict inp.etf_hot_holdings) t).getD 0 * 0.05 +
        (if t ∈ inp.theme_tickers then THEME_BONUS else 0) +
        MULTI_SOURCE_BONUS * (((long_sources inp t).length : ℚ) - 1)) := by
  by_cases hE : (dictGet (pyDict inp.etf_hot_holdings) t).isSome
  all_goals by_cases hT : t ∈ inp.theme_tickers
  all_goals by_cases hS : 1 < (long_sources inp t).length
  all_goals
    simp only [long_score_ticker, hE, hT, hS, if_true, if_false,
      decide_eq_true_eq, decide_eq_false_iff_not, Bool.false_eq_true,
      eq_self_iff_true, not_true, not_false_iff, ite_true, ite_false]
  all_goals refine congrArg round1 ?_
  all_goals
    try rw [Option.not_isSome_iff_eq_none.mp hE, Option.getD_none]
  all_goals
    try (have hlen : (long_sources inp t).length = 1 := by omega
         rw [hlen])
  all_goals push_cast
  all_goals ring

/-! ## Concrete sample inputs used by witnesses and counterexamples -/

/-- A valid 20-sample OHLCV series with rising closes and constant volume. -/
def rising20 : List (ℚ × ℚ) :=
  [(100, 100), (101, 100), (102, 100), (103, 100), (104, 100),
   (105, 100), (106, 100), (107, 100), (108, 100), (109, 100),
   (110, 100), (111, 100), (112, 100), (113, 100), (114, 100),
   (115, 100), (116, 100), (117, 100), (118, 100), (119, 100)]

/-- A 19-sample series: one short of the minimum history. -/
def rising19 : List (ℚ × ℚ) :=
  [(100, 100), (101, 100), (102, 100), (103, 100), (104, 100),
   (105, 100), (106, 100), (107, 100), (108, 100), (109, 100),
   (110, 100), (111, 100), (112, 100), (113, 100), (114, 100),
   (115, 100), (116, 100), (117, 100), (118, 100)]

/-- A valid 20-sample series whose volumes are all zero. -/
def zerovol20 : List (ℚ × ℚ) :=
  [(100, 0), (101, 0), (102, 0), (103, 0), (104, 0),
   (105, 0), (106, 0), (107, 0), (108, 0), (109, 0),
   (110, 0), (111, 0), (112, 0), (113, 0), (114, 0),
   (115, 0), (116, 0), (117, 0), (118, 0), (119, 0)]

/-! ## Claim theorems -/

/-- Claim C1: for every OHLCV series of length at least 20 accepted by the
Technical Trend Engine (positive closes, nonnegative volumes),
calculate_momentum_score returns a profile whose composite score lies in
[0,100]: the final score is clamped after all additive terms and too-late
penalties. -/
theorem momentum_score_in_unit_range (ohlcv : List (ℚ × ℚ)) (spy : ℚ)
    (hlen : 20 ≤ ohlcv.length) (hvalid : ∀ p ∈ ohlcv, 0 < p.1 ∧ 0 ≤ p.2) :
    ∃ prof, calculate_momentum_score ohlcv spy = some prof ∧
      0 ≤ prof.score ∧ prof.score ≤ 100 := by
  unfold calculate_momentum_score
  rw [if_neg (by omega)]
  refine ⟨_, rfl, ?_, ?_⟩
  · exact (round1_clamp_bounds _).1
  · exact (round1_clamp_bounds _).2

/-- Witness for C1: the rising 20-sample series yields a profile with score
inside [0,100]. -/
theorem momentum_score_in_unit_range_witness :
    ∃ prof, calculate_momentum_score rising20 0 = some prof ∧
      0 ≤ prof.score ∧ prof.score ≤ 100 :=
  momentum_score_in_unit_range rising20 0 (by decide) (by decide)

/-- Claim C3: trend-quality classification is the first-match priority list
strong_early, confirmed, emerging, extended, weak, bearish exactly as the
spec orders it, and in particular a score of at least 65 with a non-empty
too-late flag set that misses the strong_early conditions lands on
emerging, never confirmed. -/
theorem classify_trend_priority_order :
    (∀ (s a r : ℚ) (f : List String),
      classify_trend s a r f = classify_trend_specRules s a r f) ∧
    (∀ (s a r : ℚ) (f : List String), 65 ≤ s → f ≠ [] →
      ¬(75 ≤ s ∧ 0 < a ∧ 0 < r) → classify_trend s a r f = "emerging") := by
  constructor
  · intro s a r f
    rfl
  · intro s a r f hs hf hn
    unfold classify_trend
    rw [if_neg hn, if_neg (by rintro ⟨-, h⟩; exact hf h), if_pos (by linarith)]

/-- Witness for C3: score 70 with one too-late flag and no acceleration is
classified emerging. -/
theorem classify_trend_priority_order_witness :
    classify_trend 70 0 0 ["rsi_extreme"] = "emerging" :=
  classify_trend_priority_order.2 70 0 0 ["rsi_extreme"] (by norm_num) (by simp)
    (by rintro ⟨h, -⟩; norm_num at h)

/-- Claim C6: fewer than 20 samples yield no profile, exactly 20 valid
samples yield one, and a short-history ticker is dropped locally: the scan
loop over a batch containing it produces exactly the other tickers'
results. -/
theorem momentum_min_history_boundary :
    (∀ (ohlcv : List (ℚ × ℚ)) (spy : ℚ), ohlcv.length < 20 →
      calculate_momentum_score ohlcv spy = none) ∧
    (∀ (ohlcv : List (ℚ × ℚ)) (spy : ℚ), ohlcv.length = 20 →
      (∀ p ∈ ohlcv, 0 < p.1 ∧ 0 ≤ p.2) →
      (calculate_momentum_score ohlcv spy).isSome = true) ∧
    (∀ (pre post : List (String × List (ℚ × ℚ))) (tk : String)
       (d : List (ℚ × ℚ)) (spy : ℚ), d.length < 20 →
      scan_momentum_core (pre ++ (tk, d) :: post) spy =
        scan_momentum_core pre spy ++ scan_momentum_core post spy) := by
  refine ⟨?_, ?_, ?_⟩
  · intro ohlcv spy h
    unfold calculate_momentum_score
    rw [if_pos h]
  · intro ohlcv spy h _
    unfold calculate_momentum_score
    rw [if_neg (by omega)]
    rfl
  · intro pre post tk d spy h
    have hd : calculate_momentum_score d spy = none := by
      unfold calculate_momentum_score
      rw [if_pos h]
    unfold scan_momentum_core
    rw [List.filterMap_append]
    congr 1
    rw [List.filterMap_cons]
    by_cases hde : d = []
    · simp [hde]
    · simp [hde, hd]

/-- Witness for C6: 19 rising samples yield none, 20 yield a profile, and a
batch with the 19-sample ticker in the middle keeps both neighbours. -/
theorem momentum_min_history_boundary_witness :
    calculate_momentum_score rising19 0 = none ∧
    (calculate_momentum_score rising20 0).isSome = true ∧
    scan_momentum_core [("A", rising20), ("B", rising19)] 0 =
      scan_momentum_core [("A", rising20)] 0 ++ scan_momentum_core [] 0 :=
  ⟨momentum_min_history_boundary.1 rising19 0 (by decide),
   momentum_min_history_boundary.2.1 rising20 0 (by decide) (by decide),
   momentum_min_history_boundary.2.2 [("A", rising20)] [] "B" rising19 0 (by decide)⟩

/-- Counterexample for C7: a two-sample price series has fewer than 14
deltas, yet calculate_rsi returns the NaN of the undefined rolling mean
(modelled none), not the claimed default of 50. -/
theorem rsi_short_series_counterexample :
    calculate_rsi [1, 2] = none ∧ calculate_rsi [1, 2] ≠ some 50 := by
  constructor
  · decide
  · decide

/-- Claim C7 amended: calculate_rsi returns the 50 default only for the empty
price series; every non-empty series with fewer than 14 samples produces the
undefined rolling mean (NaN, modelled none); with exactly 14 samples the
rolling window is full (13 real deltas plus the masked first delta) and a
numeric RSI is produced, e.g. 100 for a strictly rising series. -/
theorem rsi_default_only_for_empty :
    calculate_rsi [] = some 50 ∧
    (∀ prices : List ℚ, prices ≠ [] → prices.length < 14 →
      calculate_rsi prices = none) ∧
    calculate_rsi [1, 2, 3, 4, 5, 6, 7, 8, 9, 10, 11, 12, 13, 14] = some 100 := by
  refine ⟨by decide, ?_, ?_⟩
  · intro prices h1 h2
    unfold calculate_rsi
    rw [if_neg h1, if_pos h2]
  · norm_num [calculate_rsi, mean, lastN]
    exact List.cons_ne_nil _ _

/-- Witness for C7 amended: the two-sample series is non-empty and short, so
the RSI is NaN. -/
theorem rsi_default_only_for_empty_witness :
    calculate_rsi [1, 2] = none :=
  rsi_default_only_for_empty.2.1 [1, 2] (by decide) (by decide)

/-- Claim C9: when the mean of all volumes before the last sample is not
positive, the guarded branch defines volume_ratio as 1.0 instead of
dividing, and the profile is still produced (no division-by-zero path). -/
theorem volume_ratio_guard (ohlcv : List (ℚ × ℚ)) (spy : ℚ)
    (hlen : 20 ≤ ohlcv.length)
    (hvol : mean (ohlcv.map Prod.snd).dropLast ≤ 0) :
    ∃ prof, calculate_momentum_score ohlcv spy = some prof ∧
      prof.volume_ratio = 1 := by
  unfold calculate_momentum_score
  rw [if_neg (by omega)]
  refine ⟨_, rfl, ?_⟩
  have h : ¬ (0 < mean ((ohlcv.map Prod.snd).dropLast)) := not_lt.mpr hvol
  simp only [h, if_false, ite_false]
  norm_num [round2, round_eq]

/-- Witness for C9: the all-zero-volume series yields volume_ratio 1. -/
theorem volume_ratio_guard_witness :
    ∃ prof, calculate_momentum_score zerovol20 0 = some prof ∧
      prof.volume_ratio = 1 :=
  volume_ratio_guard zerovol20 0 (by decide) (by norm_num [mean, zerovol20])

/-- Inputs for claim C5: momentum 80 and reddit 60 on the same ticker, no
other data. -/
def inp5 : LongInputs :=
  { momentum_data := [("A", 80)], reddit_data := [("A", 60)], news_data := []
    finviz_data := [], google_trends_data := [], short_interest_data := []
    options_data := [], perplexity_data := [], insider_data := [], analyst_data := []
    congress_data := [], institutional_data := [], theme_tickers := []
    etf_hot_holdings := [] }

/-- Weight table for claim C5: momentum and reddit at 0.5, everything else 0. -/
def w5 : LongWeights :=
  { momentum := 0.5, finviz := 0, reddit := 0.5, news := 0, google_trends := 0
    short_interest := 0, options_activity := 0, perplexity := 0, insider_trading := 0
    analyst_ratings := 0, congress_trading := 0, institutional := 0 }

/-- Inputs where every source covers ticker A with 95, A is a hot theme and a
hot ETF holding: the combined score exceeds 100. -/
def inpX : LongInputs :=
  { momentum_data := [("A", 95)], reddit_data := [("A", 95)], news_data := [("A", 95)]
    finviz_data := [("A", 95)], google_trends_data := [("A", 95)]
    short_interest_data := [("A", 95)], options_data := [("A", 95)]
    perplexity_data := [("A", 95)], insider_data := [("A", 95)], analyst_data := [("A", 95)]
    congress_data := [("A", 95)], institutional_data := [("A", 95)]
    theme_tickers := ["A"], etf_hot_holdings := [("A", 100)] }

/-- Claim C2: for every ticker of the output universe, the combined score is
the weighted sum of the twelve per-source scores (absent sources default to
50) plus the ETF-flow bonus (flow score times 0.05), the theme bonus (+5)
and the uncapped multi-source bonus (+3 per contributing source beyond the
first), with no final clamp: on concrete inputs the combined score exceeds
100. -/
theorem combined_score_formula_unclamped :
    (∀ (inp : LongInputs) (w : LongWeights) (t : String), t ∈ long_all_tickers inp →
      (long_score_ticker inp w t).combined_score =
        round1 (long_weighted_sum inp w t +
          (dictGet (pyDict inp.etf_hot_holdings) t).getD 0 * 0.05 +
          (if t ∈ inp.theme_tickers then 5 else 0) +
          3 * (((long_sources inp t).length : ℚ) - 1))) ∧
    (∃ r ∈ aggregate_scores inpX DEFAULT_WEIGHTS, 100 < r.combined_score) := by
  constructor
  · intro inp w t ht
    rw [long_score_ticker_eq inp w t (one_le_long_sources_length inp t ht)]
    norm_num [THEME_BONUS, MULTI_SOURCE_BONUS]
  · refine ⟨{ ticker := "A", combined_score := 141,
              sources := ["momentum", "finviz", "reddit", "news", "google_trends",
                          "short_interest", "options", "perplexity", "insider",
                          "analyst", "congress", "institutional", "etf_flows"],
              in_hot_theme := true }, ?_, by norm_num⟩
    norm_num [aggregate_scores, long_all_tickers, long_score_ticker, long_sources,
      long_sources_12, long_weighted_sum, pyDict, dictInsert, dictGet, dictKeys,
      dedupFirst, inpX, DEFAULT_WEIGHTS, round1, round_eq, THEME_BONUS,
      MULTI_SOURCE_BONUS, List.find?]

/-- Witness for C2: the formula instantiated on the all-sources input. -/
theorem combined_score_formula_unclamped_witness :
    (long_score_ticker inpX DEFAULT_WEIGHTS "A").combined_score =
      round1 (long_weighted_sum inpX DEFAULT_WEIGHTS "A" +
        (dictGet (pyDict inpX.etf_hot_holdings) "A").getD 0 * 0.05 +
        (if "A" ∈ inpX.theme_tickers then 5 else 0) +
        3 * (((long_sources inpX "A").length : ℚ) - 1)) :=
  combined_score_formula_unclamped.1 inpX DEFAULT_WEIGHTS "A"
    (by norm_num [long_all_tickers, dedupFirst, pyDict, dictInsert, dictKeys, inpX])

/-- Claim C5: two sources with scores 80 and 60 under half-half weights and
no bonuses give a combined score of exactly 73 (weighted sum 70 plus the +3
multi-source bonus). -/
theorem two_source_combined_73 :
    aggregate_scores inp5 w5 =
      [{ ticker := "A", combined_score := 73, sources := ["momentum", "reddit"],
         in_hot_theme := false }] := by
  norm_num [aggregate_scores, long_all_tickers, long_score_ticker, long_sources,
    long_sources_12, long_weighted_sum, pyDict, dictInsert, dictGet, dictKeys,
    dedupFirst, inp5, w5, round1, round_eq, THEME_BONUS, MULTI_SOURCE_BONUS,
    List.find?]

/-- The failing input of claim C8: a momentum record with RSI 85 and no other
bearish trait. -/
def rec85 : MomRec :=
  { ticker := "X", change_1d := 0, change_5d := 0, change_1m := 0, rsi := 85
    volume_ratio := 1, above_ma20 := true, above_ma50 := true }

theorem bearish_eval_rec85 : bearish_eval rec85 = (20, ["overbought"]) := by
  norm_num [bearish_eval, rec85]

/-- Claim C8 (code bug): the elif branch for RSI above 80 is unreachable
behind the RSI above 70 test, so no record ever receives the
extreme_overbought signal or its extra points; at RSI 85 the emitted
candidate carries only the overbought signal. -/
theorem extreme_overbought_unreachable :
    (∀ stock : MomRec, "extreme_overbought" ∉ (bearish_eval stock).2) ∧
    scan_bearish_momentum [rec85] =
      [{ ticker := "X", score := 20, signals := ["overbought"],
         change_1m := 0, rsi := 85 }] := by
  constructor
  · intro stock
    simp only [bearish_eval]
    by_cases h70 : 70 < stock.rsi
    · simp only [h70, if_true]
      split_ifs <;> simp
    · by_cases h80 : 80 < stock.rsi
      · linarith
      · simp only [h70, h80, if_false]
        split_ifs <;> simp
  · norm_num [scan_bearish_momentum, List.filterMap_cons, bearish_eval_rec85,
      round1, round2, round_eq]
    norm_num [rec85]

/-- Claim C10: the etf-flows hot-holdings membership adds one to the
contributing-source count, turning the multi-source bonus into 3 times the
count of the twelve score sources covering the ticker; yet a ticker present
only in the hot-holdings map and no score source never reaches the output,
because the universe is the union of the twelve score-source key sets
alone. -/
theorem etf_hot_holding_source_counting :
    (∀ (inp : LongInputs) (w : LongWeights) (t : String),
      t ∈ dictKeys (pyDict inp.etf_hot_holdings) → t ∉ long_all_tickers inp →
      ∀ r ∈ aggregate_scores inp w, r.ticker ≠ t) ∧
    (∀ (inp : LongInputs) (w : LongWeights) (t : String), t ∈ long_all_tickers inp →
      (dictGet (pyDict inp.etf_hot_holdings) t).isSome = true →
      (long_sources inp t).length = (long_sources_12 inp t).length + 1 ∧
      (long_score_ticker inp w t).combined_score =
        round1 (long_weighted_sum inp w t +
          (dictGet (pyDict inp.etf_hot_holdings) t).getD 0 * 0.05 +
          (if t ∈ inp.theme_tickers then 5 else 0) +
          3 * ((long_sources_12 inp t).length : ℚ))) := by
  constructor
  · intro inp w t _ hNot r hr
    unfold aggregate_scores at hr
    rw [List.mem_mergeSort] at hr
    obtain ⟨t2, ht2, rfl⟩ := List.mem_map.mp hr
    have hTick : (long_score_ticker inp w t2).ticker = t2 := rfl
    rw [hTick]
    intro heq
    exact hNot (heq ▸ ht2)
  · intro inp w t ht hE
    have hlen : (long_sources inp t).length = (long_sources_12 inp t).length + 1 := by
      rw [long_sources, List.length_append, if_pos hE]
      rfl
    refine ⟨hlen, ?_⟩
    rw [long_score_ticker_eq inp w t (one_le_long_sources_length inp t ht), hlen]
    refine congrArg round1 ?_
    norm_num [THEME_BONUS, MULTI_SOURCE_BONUS]
    try push_cast
    try ring_nf

/-- Witness for C10: on the all-sources input, ticker A has 13 contributing
sources and the etf-inclusive bonus formula holds. -/
theorem etf_hot_holding_source_counting_witness :
    (long_sources inpX "A").length = (long_sources_12 inpX "A").length + 1 ∧
    (long_score_ticker inpX DEFAULT_WEIGHTS "A").combined_score =
      round1 (long_weighted_sum inpX DEFAULT_WEIGHTS "A" +
        (dictGet (pyDict inpX.etf_hot_holdings) "A").getD 0 * 0.05 +
        (if "A" ∈ inpX.theme_tickers then 5 else 0) +
        3 * ((long_sources_12 inpX "A").length : ℚ)) :=
  etf_hot_holding_source_counting.2 inpX DEFAULT_WEIGHTS "A"
    (by norm_num [long_all_tickers, dedupFirst, pyDict, dictInsert, dictKeys, inpX])
    (by decide)

/-- Claim C4: with a short-interest record at short_float 25, the squeeze
warning is set with and without the penalty switch, the penalized score is
exactly the unpenalized score minus 15 floored at 0, and the output filter
keeps the ticker only when the resulting score reaches min_score. -/
theorem squeeze_penalty_fifteen (inp : ShortInputs) (w : ShortWeights)
    (min_score : ℚ) (t : String) (rec : ShortIntRec)
    (hsi : dictGet (pyDict inp.short_interest_data) t = some rec)
    (hsf : rec.short_float = some 25) :
    (short_score_ticker inp w true t).short_score =
      max 0 ((short_score_ticker inp w false t).short_score - 15) ∧
    (short_score_ticker inp w true t).squeeze_warning = true ∧
    (short_score_ticker inp w false t).squeeze_warning = true ∧
    (∀ r ∈ aggregate_short_scores inp w min_score true, r.ticker = t →
      min_score ≤ r.short_score) := by
  have hw : short_squeeze_warning inp t = true := by
    unfold short_squeeze_warning
    rw [hsi]
    show decide (20 < rec.short_float.getD 0) = true
    rw [hsf]
    norm_num
  refine ⟨?_, ?_, ?_, ?_⟩
  · show max 0 (round1 (if short_squeeze_warning inp t && true then
        short_pre_score inp w t - SQUEEZE_PENALTY_POINTS else short_pre_score inp w t)) =
      max 0 (max 0 (round1 (if short_squeeze_warning inp t && false then
        short_pre_score inp w t - SQUEEZE_PENALTY_POINTS else short_pre_score inp w t)) - 15)
    rw [hw]
    simp only [Bool.and_true, Bool.and_false, if_true, if_false]
    rw [show SQUEEZE_PENALTY_POINTS = (15 : ℚ) from rfl, round1_sub_fifteen]
    exact max_zero_shift (round1 (short_pre_score inp w t))
  · show short_squeeze_warning inp t = true
    exact hw
  · show short_squeeze_warning inp t = true
    exact hw
  · intro r hr _
    unfold aggregate_short_scores at hr
    rw [List.mem_mergeSort] at hr
    have := List.of_mem_filter hr
    exact of_decide_eq_true this

/-- Short-engine inputs for the C4 witness: one bearish-momentum record at 70
and a short-interest record at short_float 25 for the same ticker. -/
def sInp : ShortInputs :=
  { bearish_momentum_data := [("A", { score := 70, signals := ["declining"] })]
    fundamentals_data := [], analyst_data := [], options_data := [], insider_data := []
    institutional_data := [], finviz_data := { top_losers := [], overbought := [] }
    congress_data := [], news_data := []
    short_interest_data := [("A", { short_float := some 25 })] }

/-- Witness for C4: the squeeze relation instantiated on the concrete
short-engine input. -/
theorem squeeze_penalty_fifteen_witness :
    (short_score_ticker sInp DEFAULT_SHORT_WEIGHTS true "A").short_score =
      max 0 ((short_score_ticker sInp DEFAULT_SHORT_WEIGHTS false "A").short_score - 15) ∧
    (short_score_ticker sInp DEFAULT_SHORT_WEIGHTS true "A").squeeze_warning = true ∧
    (short_score_ticker sInp DEFAULT_SHORT_WEIGHTS false "A").squeeze_warning = true ∧
    (∀ r ∈ aggregate_short_scores sInp DEFAULT_SHORT_WEIGHTS 40 true, r.ticker = "A" →
      (40 : ℚ) ≤ r.short_score) :=
  squeeze_penalty_fifteen sInp DEFAULT_SHORT_WEIGHTS 40 "A"
    { short_float := some 25 } (by decide) rfl

end TrendingStocks
